import Mathlib

/-!
Verification of the Camera-Test repository (DirectShowCamera.cpp).

The repository wraps the Windows DirectShow API.  The computational pieces
(brightness averaging, FPS computation, BMP header population, BGR-to-RGB
conversion, error-string mapping) are embedded here as pure functions over
lists of bytes (Nat, with a byte bound stated where it matters).  The COM
orchestration code (device enumeration, filter-graph construction) is
embedded as deterministic functions of an explicit environment record that
supplies the HRESULT of every framework call, since those results come from
the platform.

Machine-integer conventions:
* BYTE values are Nat, bounded by 256 in hypotheses where the bound matters.
* HRESULT values are modelled as their 32-bit bit patterns (Nat below 2^32);
  FAILED(hr) is the sign-bit test 2^31 <= hr.
* The C++ accumulator for brightness has type long, which is 32 bits wide on
  Windows; its wrap-around is modelled explicitly by wrap32.
* double arithmetic is modelled by exact rationals; the one place where the
  code can produce a non-finite double (0.0/0.0, giving NaN) is modelled by
  an Option, with none standing for the non-finite result.
-/

/-- HRESULT constant S_OK (0x00000000). -/
def S_OK : Nat := 0

/-- HRESULT constant E_FAIL (0x80004005), as its 32-bit pattern. -/
def E_FAIL : Nat := 0x80004005

/-- HRESULT constant E_NOINTERFACE (0x80004002), as its 32-bit pattern. -/
def E_NOINTERFACE : Nat := 0x80004002

/-- HRESULT constant E_INVALIDARG (0x80070057), as its 32-bit pattern. -/
def E_INVALIDARG : Nat := 0x80070057

/-- HRESULT constant VFW_E_NOT_FOUND (0x80040216), as its 32-bit pattern. -/
def VFW_E_NOT_FOUND : Nat := 0x80040216

/-- HRESULT constant VFW_E_CANNOT_CONNECT (0x80040217), as its 32-bit pattern. -/
def VFW_E_CANNOT_CONNECT : Nat := 0x80040217

/-- The FAILED(hr) macro: an HRESULT fails exactly when its sign bit is set. -/
def FAILEDb (hr : Nat) : Bool := decide (2 ^ 31 <= hr)

/-- Two's-complement wrap-around of a signed 32-bit integer, modelling what a
Windows long (32 bits) does on overflow. -/
def wrap32 (n : Int) : Int := (n + 2 ^ 31) % 2 ^ 32 - 2 ^ 31

/-- Unsigned 32-bit subtraction, modelling DWORD subtraction
(GetTickCount() - m_startTime) in CSampleGrabberCB::GetAverageFPS. -/
def dwordSub (a b : Nat) : Nat := (a % 2 ^ 32 + 2 ^ 32 - b % 2 ^ 32) % 2 ^ 32

/-- The accumulation loop of CSampleGrabberCB::CalculateAverageBrightness:
for i = 0, 3, 6, ... with i + 2 < frameSize, the code adds
(frameData[i] + frameData[i+1] + frameData[i+2]) / 3 (integer division) to the
long accumulator totalBrightness.  The long is 32 bits wide on Windows, so
each addition is wrapped by wrap32. -/
def brightnessAcc : List Nat → Int → Int
  | b0 :: b1 :: b2 :: rest, acc =>
      brightnessAcc rest (wrap32 (acc + ((b0 + b1 + b2) / 3 : Nat)))
  | _, acc => acc

/-- One step of the brightness accumulation on an all-255 pixel: every byte of
the pixel is 255, so the accumulator gains (255 + 255 + 255) / 3 = 255, with
the 32-bit wrap of the long accumulator applied. -/
def addPixel255 (acc : Int) : Int := wrap32 (acc + 255)

/-- CSampleGrabberCB::CalculateAverageBrightness.  Returns
(double)totalBrightness / (frameSize / 3) when frameSize > 0 and 0.0 otherwise.
When 0 < frameSize < 3 the integer quotient frameSize / 3 is 0 and the code
divides 0.0 by 0.0, which is NaN in IEEE doubles; that non-finite result is
modelled by none.  Finite double results are modelled by their exact rational
values. -/
def CalculateAverageBrightness (frameData : List Nat) : Option ℚ :=
  let totalBrightness : Int := brightnessAcc frameData 0
  if 0 < frameData.length then
    let pixels : Nat := frameData.length / 3
    if pixels = 0 then none
    else some ((totalBrightness : ℚ) / (pixels : ℚ))
  else some 0

/-- Modelled from the spec wording of claim C1: the sum over every 3-byte pixel
of the integer quotient (b0 + b1 + b2) / 3.  Used as the specification-side
value to compare CalculateAverageBrightness against. -/
def pixelSum : List Nat → Nat
  | b0 :: b1 :: b2 :: rest => (b0 + b1 + b2) / 3 + pixelSum rest
  | _ => 0

/-- Specification-side mean brightness from claim C1: pixelSum divided by the
number of pixels frameSize / 3, as an exact rational. -/
def specMeanBrightness (frameData : List Nat) : ℚ :=
  (pixelSum frameData : ℚ) / ((frameData.length / 3 : Nat) : ℚ)

/-- CSampleGrabberCB::GetAverageFPS.  elapsed is the DWORD difference
GetTickCount() - m_startTime; the result is (double)m_frameCount * 1000.0 /
elapsed when elapsed > 0 and 0.0 otherwise, modelled by exact rationals. -/
def GetAverageFPS (m_frameCount m_startTime now : Nat) : ℚ :=
  let elapsed : Nat := dwordSub now m_startTime
  if 0 < elapsed then (m_frameCount : ℚ) * 1000 / (elapsed : ℚ) else 0

/-- The BGR-to-RGB conversion loop of CFrameSavingCallback::SaveFrameAsBMP.
The destination vector rgbData is value-initialised to zero; for every index
i = 0, 3, 6, ... with i + 2 < frameSize the loop writes
rgbData[i] = frameData[i+2], rgbData[i+1] = frameData[i+1],
rgbData[i+2] = frameData[i].  Trailing 1 or 2 bytes beyond the last complete
pixel keep their zero initialisation. -/
def bgrToRgb : List Nat → List Nat
  | b0 :: b1 :: b2 :: rest => b2 :: b1 :: b0 :: bgrToRgb rest
  | rest => rest.map (fun _ => 0)

/-- The BITMAPFILEHEADER fields populated by SaveFrameAsBMP (14 bytes on disk). -/
structure BITMAPFILEHEADER where
  bfType : Nat
  bfSize : Nat
  bfReserved1 : Nat
  bfReserved2 : Nat
  bfOffBits : Nat
deriving DecidableEq

/-- The BITMAPINFOHEADER fields populated by SaveFrameAsBMP (40 bytes on disk). -/
structure BITMAPINFOHEADER where
  biSize : Nat
  biWidth : Int
  biHeight : Int
  biPlanes : Nat
  biBitCount : Nat
  biCompression : Nat
  biSizeImage : Nat
  biXPelsPerMeter : Int
  biYPelsPerMeter : Int
  biClrUsed : Nat
  biClrImportant : Nat
deriving DecidableEq

/-- The BI_RGB compression constant. -/
def BI_RGB : Nat := 0

/-- The content of the file captured_frame.bmp written by SaveFrameAsBMP:
the two headers followed by the converted pixel bytes. -/
structure BMPFile where
  fileHeader : BITMAPFILEHEADER
  infoHeader : BITMAPINFOHEADER
  pixelData : List Nat
deriving DecidableEq

/-- CFrameSavingCallback::SaveFrameAsBMP, as a function of the image
dimensions in effect when the headers are populated (m_imageWidth and
m_imageHeight; when they are zero the code first estimates them from the
frame size with floating-point sqrt, and the estimate becomes the stored
width and height) and of the frame bytes.  sizeof(BITMAPFILEHEADER) = 14 and
sizeof(BITMAPINFOHEADER) = 40, so bfOffBits = 54.  Both headers are memset to
zero before the listed fields are assigned. -/
def SaveFrameAsBMP (m_imageWidth m_imageHeight : Int) (frameData : List Nat) :
    BMPFile :=
  { fileHeader :=
      { bfType := 0x4D42
        bfSize := (14 + 40) + frameData.length
        bfReserved1 := 0
        bfReserved2 := 0
        bfOffBits := 14 + 40 }
    infoHeader :=
      { biSize := 40
        biWidth := m_imageWidth
        biHeight := -m_imageHeight
        biPlanes := 1
        biBitCount := 24
        biCompression := BI_RGB
        biSizeImage := frameData.length
        biXPelsPerMeter := 0
        biYPelsPerMeter := 0
        biClrUsed := 0
        biClrImportant := 0 }
    pixelData := bgrToRgb frameData }

/-- The mutable state of CFrameSavingCallback that ProcessFrame reads and
writes: the m_frameSaved flag (false at construction). -/
structure FrameSaverState where
  m_frameSaved : Bool
deriving DecidableEq

/-- The state of a freshly constructed CFrameSavingCallback. -/
def initFrameSaver : FrameSaverState := { m_frameSaved := false }

/-- CFrameSavingCallback::ProcessFrame.  A frame buffer is modelled as
Option (List Nat) with none for a null pointer.  The base-class ProcessFrame
(AnalyzeFrame) only prints and does not touch the saving state.  The result
is the new state together with whether SaveFrameAsBMP was invoked on this
call; the guard is !m_frameSaved && frameData && frameSize > 0, and on a save
m_frameSaved is set to true. -/
def ProcessFrame (s : FrameSaverState) (frameData : Option (List Nat)) :
    FrameSaverState × Bool :=
  match frameData with
  | none => (s, false)
  | some d =>
      if !s.m_frameSaved && decide (0 < d.length) then
        ({ m_frameSaved := true }, true)
      else (s, false)

/-- A sequence of ProcessFrame invocations threaded through the state,
recording for each call whether it saved a frame. -/
def runFrames (s : FrameSaverState) : List (Option (List Nat)) → List Bool
  | [] => []
  | x :: xs =>
      let r := ProcessFrame s x
      r.2 :: runFrames r.1 xs

/-- Whether an invocation argument qualifies for saving: a non-null buffer of
positive size. -/
def qualifyingFrame : Option (List Nat) → Bool
  | none => false
  | some d => decide (0 < d.length)

/-- Modelled from the spec wording of claim C4: the save happens exactly at
the first qualifying invocation and never afterwards. -/
def firstSaveMask : List (Option (List Nat)) → List Bool
  | [] => []
  | x :: xs =>
      if qualifyingFrame x then true :: xs.map (fun _ => false)
      else false :: firstSaveMask xs

/-- The choice of description appended by the switch in
DirectShowCamera::GetErrorDescription, stated spec-side from the wording of
claim C5. -/
def specErrorChoice (hr : Nat) : String :=
  if hr = VFW_E_NOT_FOUND then "(No capture devices found)"
  else if hr = E_NOINTERFACE then "(Interface not supported)"
  else if hr = E_INVALIDARG then "(Invalid argument)"
  else if hr = VFW_E_CANNOT_CONNECT then "(Cannot connect filters)"
  else "(Unknown error)"

/-- DirectShowCamera::GetErrorDescription.  The stream first receives
"HRESULT: 0x" and the value in lowercase hexadecimal (std::hex prints the
32-bit pattern), then the switch appends exactly one description. -/
def GetErrorDescription (hr : Nat) : String :=
  let base : String := "HRESULT: 0x" ++ String.mk (Nat.toDigits 16 hr)
  if hr = VFW_E_NOT_FOUND then base ++ " (No capture devices found)"
  else if hr = E_NOINTERFACE then base ++ " (Interface not supported)"
  else if hr = E_INVALIDARG then base ++ " (Invalid argument)"
  else if hr = VFW_E_CANNOT_CONNECT then base ++ " (Cannot connect filters)"
  else base ++ " (Unknown error)"

/-- The per-call HRESULTs the platform returns to BuildFilterGraph: one for
SelectCamera(0), one for SetupSampleGrabber, one for SetupNullRenderer, and
one for the single RenderStream call inside ConnectFilters. -/
structure GraphEnv where
  selectCameraHr : Nat
  setupSampleGrabberHr : Nat
  setupNullRendererHr : Nat
  renderStreamHr : Nat
deriving DecidableEq

/-- The observable steps BuildFilterGraph can perform, in source order. -/
inductive GraphStep where
  | selectCamera
  | setupSampleGrabber
  | setupNullRenderer
  | connectFilters
deriving DecidableEq, Repr

/-- DirectShowCamera::ConnectFilters: a single RenderStream call connecting
camera to sample grabber to null renderer, returning its HRESULT unchanged. -/
def ConnectFilters (env : GraphEnv) : Nat := env.renderStreamHr

/-- DirectShowCamera::BuildFilterGraph.  When no camera filter is set it first
runs SelectCamera(0); then SetupSampleGrabber, SetupNullRenderer and
ConnectFilters, returning at the first FAILED result; the second component is
the trace of steps actually performed. -/
def BuildFilterGraph (env : GraphEnv) (hasCameraFilter : Bool) :
    Nat × List GraphStep :=
  let pre : List GraphStep :=
    if hasCameraFilter then [] else [GraphStep.selectCamera]
  if !hasCameraFilter && FAILEDb env.selectCameraHr then
    (env.selectCameraHr, pre)
  else if FAILEDb env.setupSampleGrabberHr then
    (env.setupSampleGrabberHr, pre ++ [GraphStep.setupSampleGrabber])
  else if FAILEDb env.setupNullRendererHr then
    (env.setupNullRendererHr,
      pre ++ [GraphStep.setupSampleGrabber, GraphStep.setupNullRenderer])
  else
    (ConnectFilters env,
      pre ++ [GraphStep.setupSampleGrabber, GraphStep.setupNullRenderer,
        GraphStep.connectFilters])

/-- The HRESULT the environment assigns to each step. -/
def stepResult (env : GraphEnv) : GraphStep → Nat
  | GraphStep.selectCamera => env.selectCameraHr
  | GraphStep.setupSampleGrabber => env.setupSampleGrabberHr
  | GraphStep.setupNullRenderer => env.setupNullRendererHr
  | GraphStep.connectFilters => env.renderStreamHr

/-- Modelled from the spec wording of claim C6: the fixed order of steps,
with SelectCamera(0) present exactly when no camera filter is set yet. -/
def graphStepOrder (hasCameraFilter : Bool) : List GraphStep :=
  (if hasCameraFilter then [] else [GraphStep.selectCamera]) ++
    [GraphStep.setupSampleGrabber, GraphStep.setupNullRenderer,
      GraphStep.connectFilters]

/-- Modelled from the spec wording of claim C6: run the steps in order,
stopping at the first failing step and returning its status code unchanged,
performing none of the later steps; when every step succeeds the last step's
code is returned. -/
def specRunSteps (env : GraphEnv) : List GraphStep → Nat × List GraphStep
  | [] => (S_OK, [])
  | s :: rest =>
      if FAILEDb (stepResult env s) then (stepResult env s, [s])
      else if rest.isEmpty then (stepResult env s, [s])
      else
        let r := specRunSteps env rest
        (r.1, s :: r.2)

/-- One enumerated device as the platform presents it to Enumeratecameras:
whether BindToStorage succeeds, whether reading FriendlyName succeeds, and
the name read. -/
structure DeviceEntry where
  bindOk : Bool
  nameOk : Bool
  friendlyName : String
deriving DecidableEq

/-- The platform results consumed by Enumeratecameras: the HRESULT of creating
the system device enumerator, whether CreateClassEnumerator finds the video
capture category (false models its S_FALSE = no devices result; an outright
failure of that call would make the C++ dereference a null enumerator, so it
is outside the modelled contract), and the devices yielded by the moniker
enumerator in order. -/
structure EnumEnv where
  createDevEnumHr : Nat
  classEnumFound : Bool
  devices : List DeviceEntry
deriving DecidableEq

/-- The CameraInfo fields filled by Enumeratecameras (the moniker pointer is
omitted). -/
structure CameraInfo where
  friendlyName : String
  index : Nat
deriving DecidableEq

/-- The while loop of Enumeratecameras: the running index is incremented on
every enumerated moniker, and a CameraInfo is pushed only when both
BindToStorage and the FriendlyName read succeed. -/
def enumLoop : List DeviceEntry → Nat → List CameraInfo
  | [], _ => []
  | d :: rest, idx =>
      if d.bindOk && d.nameOk then
        { friendlyName := d.friendlyName, index := idx } :: enumLoop rest (idx + 1)
      else enumLoop rest (idx + 1)

/-- DirectShowCamera::Enumeratecameras.  The output vector passed in by the
caller is cleared first (so the result ignores cameras0); then the device
enumerator is created, the class enumerator is requested (S_FALSE becomes
VFW_E_NOT_FOUND), the loop runs, and the function returns VFW_E_NOT_FOUND when
the vector ended up empty and S_OK otherwise. -/
def Enumeratecameras (env : EnumEnv) (cameras0 : List CameraInfo) :
    Nat × List CameraInfo :=
  let cameras : List CameraInfo := []
  if FAILEDb env.createDevEnumHr then (env.createDevEnumHr, cameras)
  else if env.classEnumFound = false then (VFW_E_NOT_FOUND, cameras)
  else
    let cams := enumLoop env.devices 0
    (if cams.isEmpty then VFW_E_NOT_FOUND else S_OK, cams)

/-- The positions (in enumeration order) of the devices that yield a readable
FriendlyName, stated spec-side for claim C9. -/
def qualPositions : List DeviceEntry → List Nat
  | [] => []
  | d :: rest =>
      if d.bindOk && d.nameOk then 0 :: (qualPositions rest).map (· + 1)
      else (qualPositions rest).map (· + 1)

/-- A concrete platform environment with one working device, used to
exercise Enumeratecameras on a successful enumeration. -/
def oneCameraEnv : EnumEnv :=
  { createDevEnumHr := S_OK
    classEnumFound := true
    devices := [{ bindOk := true, nameOk := true,
                  friendlyName := "Integrated Webcam" }] }

theorem wrap32_eq_self (n : Int) (h0 : 0 <= n) (h1 : n < 2 ^ 31) :
    wrap32 n = n := by
  unfold wrap32
  have hmod : (n + 2 ^ 31) % 2 ^ 32 = n + 2 ^ 31 := by
    apply Int.emod_eq_of_lt <;> omega
  omega

theorem bgrToRgb_length (data : List Nat) :
    (bgrToRgb data).length = data.length := by
  match data with
  | b0 :: b1 :: b2 :: rest =>
      simp [bgrToRgb, bgrToRgb_length rest]
  | [] => simp [bgrToRgb]
  | [b0] => simp [bgrToRgb]
  | [b0, b1] => simp [bgrToRgb]

theorem pixelSum_le : (data : List Nat) → (∀ b ∈ data, b < 256) →
    pixelSum data <= 255 * (data.length / 3)
  | b0 :: b1 :: b2 :: rest, h => by
      have hr := pixelSum_le rest (fun b hb => h b (by simp [hb]))
      have h0 : b0 < 256 := h b0 (by simp)
      have h1 : b1 < 256 := h b1 (by simp)
      have h2 : b2 < 256 := h b2 (by simp)
      simp only [pixelSum, List.length_cons]
      omega
  | [], _ => by simp [pixelSum]
  | [b0], _ => by simp [pixelSum]
  | [b0, b1], _ => by simp [pixelSum]

theorem brightnessAcc_no_overflow : (data : List Nat) → (acc : Int) →
    0 <= acc → (∀ b ∈ data, b < 256) →
    acc + (pixelSum data : Int) <= 2 ^ 31 - 1 →
    brightnessAcc data acc = acc + (pixelSum data : Int)
  | b0 :: b1 :: b2 :: rest, acc, hacc, hb, hbound => by
      have hps : pixelSum (b0 :: b1 :: b2 :: rest) =
          (b0 + b1 + b2) / 3 + pixelSum rest := by simp [pixelSum]
      have hw : wrap32 (acc + (((b0 + b1 + b2) / 3 : Nat) : Int)) =
          acc + (((b0 + b1 + b2) / 3 : Nat) : Int) := by
        apply wrap32_eq_self
        · have : (0 : Int) <= (((b0 + b1 + b2) / 3 : Nat) : Int) := Int.natCast_nonneg _
          omega
        · rw [hps] at hbound
          push_cast at hbound ⊢
          omega
      have hrec := brightnessAcc_no_overflow rest
          (acc + (((b0 + b1 + b2) / 3 : Nat) : Int))
          (by have : (0 : Int) <= (((b0 + b1 + b2) / 3 : Nat) : Int) := Int.natCast_nonneg _
              omega)
          (fun b hbm => hb b (by simp [hbm]))
          (by rw [hps] at hbound; push_cast at hbound ⊢; omega)
      simp only [brightnessAcc]
      rw [hw, hrec, hps]
      push_cast
      ring
  | [], acc, _, _, _ => by simp [brightnessAcc, pixelSum]
  | [b0], acc, _, _, _ => by simp [brightnessAcc, pixelSum]
  | [b0, b1], acc, _, _, _ => by simp [brightnessAcc, pixelSum]

/-- C2: whenever CFrameSavingCallback saves a frame, the produced
captured_frame.bmp consists of a BITMAPFILEHEADER with bfType 0x4D42,
bfOffBits equal to the combined size of the two headers (14 + 40), and bfSize
equal to bfOffBits plus the frame size, followed by a BITMAPINFOHEADER with
biBitCount 24, biCompression BI_RGB, biPlanes 1, biWidth the image width,
biHeight the negated image height, and biSizeImage the frame size, followed by
exactly frameSize bytes of pixel data. -/
theorem C2_bmp_header_fields (w h : Int) (data : List Nat) :
    (SaveFrameAsBMP w h data).fileHeader.bfType = 0x4D42 ∧
    (SaveFrameAsBMP w h data).fileHeader.bfOffBits = 14 + 40 ∧
    (SaveFrameAsBMP w h data).fileHeader.bfSize =
      (SaveFrameAsBMP w h data).fileHeader.bfOffBits + data.length ∧
    (SaveFrameAsBMP w h data).infoHeader.biBitCount = 24 ∧
    (SaveFrameAsBMP w h data).infoHeader.biCompression = BI_RGB ∧
    (SaveFrameAsBMP w h data).infoHeader.biPlanes = 1 ∧
    (SaveFrameAsBMP w h data).infoHeader.biWidth = w ∧
    (SaveFrameAsBMP w h data).infoHeader.biHeight = -h ∧
    (SaveFrameAsBMP w h data).infoHeader.biSizeImage = data.length ∧
    (SaveFrameAsBMP w h data).pixelData.length = data.length :=
  ⟨rfl, rfl, rfl, rfl, rfl, rfl, rfl, rfl, rfl, bgrToRgb_length data⟩

/-- C5: for every 32-bit HRESULT pattern hr, GetErrorDescription returns the
string holding hr rendered in hexadecimal followed by exactly one description
chosen by hr's value, as listed in specErrorChoice. -/
theorem C5_error_description (hr : Nat) (hbound : hr < 2 ^ 32) :
    GetErrorDescription hr =
      ("HRESULT: 0x" ++ String.mk (Nat.toDigits 16 hr)) ++
        (" " ++ specErrorChoice hr) := by
  unfold GetErrorDescription specErrorChoice
  split_ifs <;> rfl

theorem C5_witness :
    E_INVALIDARG < 2 ^ 32 ∧
    GetErrorDescription E_INVALIDARG =
      ("HRESULT: 0x" ++ String.mk (Nat.toDigits 16 E_INVALIDARG)) ++
        (" " ++ specErrorChoice E_INVALIDARG) :=
  ⟨by norm_num [E_INVALIDARG],
   C5_error_description E_INVALIDARG (by norm_num [E_INVALIDARG])⟩

/-- C7: GetAverageFPS never divides by zero: when the elapsed DWORD difference
since the recorded start time is zero it returns 0.0, and when the elapsed
time is positive the denominator is nonzero and it returns frameCount times
1000 divided by the elapsed milliseconds. -/
theorem C7_fps_no_div_by_zero (m_frameCount m_startTime now : Nat) :
    (dwordSub now m_startTime = 0 →
      GetAverageFPS m_frameCount m_startTime now = 0) ∧
    (0 < dwordSub now m_startTime →
      ((dwordSub now m_startTime : ℚ) ≠ 0 ∧
       GetAverageFPS m_frameCount m_startTime now =
         (m_frameCount : ℚ) * 1000 / (dwordSub now m_startTime : ℚ))) := by
  constructor
  · intro h
    simp [GetAverageFPS, h]
  · intro h
    constructor
    · exact Nat.cast_ne_zero.mpr (by omega)
    · simp [GetAverageFPS, h]

theorem C7_witness :
    (0 < dwordSub 1000 0) ∧
    ((dwordSub 1000 0 : ℚ) ≠ 0 ∧
     GetAverageFPS 30 0 1000 = (30 : ℚ) * 1000 / (dwordSub 1000 0 : ℚ)) :=
  ⟨by norm_num [dwordSub],
   (C7_fps_no_div_by_zero 30 0 1000).2 (by norm_num [dwordSub])⟩

theorem runFrames_after_save (xs : List (Option (List Nat))) :
    ∀ s : FrameSaverState, s.m_frameSaved = true →
      runFrames s xs = xs.map (fun _ => false) := by
  induction xs with
  | nil => intro s h; simp [runFrames]
  | cons x xs ih =>
      intro s h
      match x with
      | none => simp [runFrames, ProcessFrame, ih s h]
      | some d => simp [runFrames, ProcessFrame, h, ih s h]

theorem runFrames_init_eq_mask (xs : List (Option (List Nat))) :
    runFrames initFrameSaver xs = firstSaveMask xs := by
  induction xs with
  | nil => rfl
  | cons x xs ih =>
      match x with
      | none => simp [runFrames, ProcessFrame, firstSaveMask, qualifyingFrame, ih]
      | some d =>
          by_cases hd : 0 < d.length
          · simp [runFrames, ProcessFrame, firstSaveMask, qualifyingFrame, hd,
              initFrameSaver, runFrames_after_save]
          · have hstep : ProcessFrame initFrameSaver (some d) =
                (initFrameSaver, false) := by
              simp [ProcessFrame, initFrameSaver, hd]
            simp [runFrames, hstep, firstSaveMask, qualifyingFrame, hd, ih]

theorem firstSaveMask_count_le_one (xs : List (Option (List Nat))) :
    (firstSaveMask xs).count true <= 1 := by
  induction xs with
  | nil => simp [firstSaveMask]
  | cons x xs ih =>
      by_cases h : qualifyingFrame x = true
      · simp [firstSaveMask, h, List.count_cons, List.count_replicate]
      · simp [firstSaveMask, h, List.count_cons, ih]

/-- C4: CFrameSavingCallback saves at most once per object lifetime: starting
from the freshly constructed state, the saves across any sequence of
ProcessFrame invocations occur exactly at the first invocation with a non-null
buffer of positive size (firstSaveMask), never number more than one, and the
m_frameSaved flag, once set, is never cleared by any invocation. -/
theorem C4_save_at_most_once :
    (∀ xs, runFrames initFrameSaver xs = firstSaveMask xs) ∧
    (∀ xs, (runFrames initFrameSaver xs).count true <= 1) ∧
    (∀ (s : FrameSaverState) (x : Option (List Nat)),
      s.m_frameSaved = true → (ProcessFrame s x).1.m_frameSaved = true) := by
  refine ⟨runFrames_init_eq_mask, ?_, ?_⟩
  · intro xs
    rw [runFrames_init_eq_mask]
    exact firstSaveMask_count_le_one xs
  · intro s x h
    match x with
    | none => simpa [ProcessFrame] using h
    | some d => simp [ProcessFrame, h]

theorem C4_witness :
    runFrames initFrameSaver [some [1, 2, 3], some [4, 5, 6]] = [true, false] ∧
    (ProcessFrame { m_frameSaved := true } (some [1, 2, 3])).1.m_frameSaved
      = true :=
  ⟨(C4_save_at_most_once.1 [some [1, 2, 3], some [4, 5, 6]]).trans (by decide),
   C4_save_at_most_once.2.2 { m_frameSaved := true } (some [1, 2, 3]) rfl⟩

/-- C6: BuildFilterGraph performs its steps in the fixed order given by
graphStepOrder (select camera 0 first when no camera filter is set yet, then
sample grabber, then null renderer, then the single RenderStream call), stops
at the first failing step, returns that step's status code unchanged, and
performs none of the later steps - it agrees with the spec-side first-failure
scan specRunSteps over that order. -/
theorem C6_build_filter_graph (env : GraphEnv) (hasCameraFilter : Bool) :
    BuildFilterGraph env hasCameraFilter =
      specRunSteps env (graphStepOrder hasCameraFilter) := by
  cases hasCameraFilter with
  | false =>
      cases h0 : FAILEDb env.selectCameraHr <;>
        cases h1 : FAILEDb env.setupSampleGrabberHr <;>
          cases h2 : FAILEDb env.setupNullRendererHr <;>
            simp [BuildFilterGraph, specRunSteps, graphStepOrder, stepResult,
              ConnectFilters, h0, h1, h2]
  | true =>
      cases h1 : FAILEDb env.setupSampleGrabberHr <;>
        cases h2 : FAILEDb env.setupNullRendererHr <;>
          simp [BuildFilterGraph, specRunSteps, graphStepOrder, stepResult,
            ConnectFilters, h1, h2]

theorem bgrToRgb_get_pixel : (data : List Nat) → (k : Nat) →
    3 * k + 2 < data.length →
    (bgrToRgb data).get? (3 * k) = data.get? (3 * k + 2) ∧
    (bgrToRgb data).get? (3 * k + 1) = data.get? (3 * k + 1) ∧
    (bgrToRgb data).get? (3 * k + 2) = data.get? (3 * k)
  | b0 :: b1 :: b2 :: rest, 0, _ => by simp [bgrToRgb]
  | b0 :: b1 :: b2 :: rest, k + 1, hk => by
      have hk' : 3 * k + 2 < rest.length := by
        simp only [List.length_cons] at hk
        omega
      have ih := bgrToRgb_get_pixel rest k hk'
      have e0 : 3 * (k + 1) = 3 * k + 1 + 1 + 1 := by ring
      have e1 : 3 * (k + 1) + 1 = 3 * k + 1 + 1 + 1 + 1 := by ring
      have e2 : 3 * (k + 1) + 2 = 3 * k + 2 + 1 + 1 + 1 := by ring
      simp only [bgrToRgb, e0, e1, e2, List.get?_cons_succ]
      have e3 : 3 * k + 1 + 1 = 3 * k + 2 := by ring
      have e4 : 3 * k + 1 + 1 + 1 = 3 * k + 1 + 2 := by ring
      constructor
      · exact e3 ▸ ih.1
      · refine And.intro ?_ ?_
        · have := ih.2.1
          simpa [e3, e4] using this
        · have := ih.2.2
          simpa [e3, e4] using this
  | [], k, hk => by simp at hk
  | [b0], k, hk => by simp at hk
  | [b0, b1], k, hk => by simp at hk

theorem bgrToRgb_involutive : (data : List Nat) → data.length % 3 = 0 →
    bgrToRgb (bgrToRgb data) = data
  | [], _ => rfl
  | [b0], h => by simp at h
  | [b0, b1], h => by simp at h
  | b0 :: b1 :: b2 :: rest, h => by
      have hr : rest.length % 3 = 0 := by
        simp only [List.length_cons] at h
        omega
      simp only [bgrToRgb]
      rw [bgrToRgb_involutive rest hr]

theorem bgrToRgb_get_trailing : (data : List Nat) → (j : Nat) →
    data.length / 3 * 3 <= j →
    (bgrToRgb data).get? j = if j < data.length then some 0 else none
  | [], j, _ => by simp [bgrToRgb]
  | [b0], j, _ => by
      match j with
      | 0 => simp [bgrToRgb]
      | j + 1 => simp [bgrToRgb]
  | [b0, b1], j, _ => by
      match j with
      | 0 => simp [bgrToRgb]
      | 1 => simp [bgrToRgb]
      | j + 2 => simp [bgrToRgb]
  | b0 :: b1 :: b2 :: rest, j, hj => by
      have hj3 : rest.length / 3 * 3 + 3 <= j := by
        simp only [List.length_cons] at hj
        omega
      obtain ⟨j', rfl⟩ : ∃ j', j = j' + 3 := ⟨j - 3, by omega⟩
      have ih := bgrToRgb_get_trailing rest j' (by omega)
      have e : j' + 3 = j' + 1 + 1 + 1 := by ring
      simp only [bgrToRgb, e, List.get?_cons_succ]
      rw [ih]
      by_cases hlt : j' < rest.length
      · rw [if_pos hlt, if_pos (by simp only [List.length_cons]; omega)]
      · rw [if_neg hlt, if_neg (by simp only [List.length_cons]; omega)]

/-- C3 counterexample: the transformation written to the BMP pixel area is not
an involution on every buffer; on the single-byte buffer it zeroes the
trailing byte, so applying it twice does not restore the original buffer. -/
theorem C3_counterexample : bgrToRgb (bgrToRgb [5]) ≠ [5] := by decide

/-- C3 (amended): the pixel data written to the BMP file is the input buffer
with the first and third byte of every complete 3-byte pixel swapped and the
middle byte unchanged; the transformation is an involution on buffers whose
length is a multiple of 3 (buffers consisting only of complete pixels); and
any trailing 1 or 2 bytes beyond the last complete pixel are written as
zero. -/
theorem C3_pixel_conversion (w h : Int) (data : List Nat) (k j : Nat)
    (hk : 3 * k + 2 < data.length) (hj : data.length / 3 * 3 <= j) :
    (SaveFrameAsBMP w h data).pixelData = bgrToRgb data ∧
    ((bgrToRgb data).get? (3 * k) = data.get? (3 * k + 2) ∧
     (bgrToRgb data).get? (3 * k + 1) = data.get? (3 * k + 1) ∧
     (bgrToRgb data).get? (3 * k + 2) = data.get? (3 * k)) ∧
    (data.length % 3 = 0 → bgrToRgb (bgrToRgb data) = data) ∧
    ((bgrToRgb data).get? j = if j < data.length then some 0 else none) :=
  ⟨rfl, bgrToRgb_get_pixel data k hk,
   fun hm => bgrToRgb_involutive data hm,
   bgrToRgb_get_trailing data j hj⟩

theorem C3_witness :
    (SaveFrameAsBMP 2 2 [1, 2, 3, 4]).pixelData = bgrToRgb [1, 2, 3, 4] ∧
    ((bgrToRgb [1, 2, 3, 4]).get? (3 * 0) = [1, 2, 3, 4].get? (3 * 0 + 2) ∧
     (bgrToRgb [1, 2, 3, 4]).get? (3 * 0 + 1) = [1, 2, 3, 4].get? (3 * 0 + 1) ∧
     (bgrToRgb [1, 2, 3, 4]).get? (3 * 0 + 2) = [1, 2, 3, 4].get? (3 * 0)) ∧
    (([1, 2, 3, 4] : List Nat).length % 3 = 0 →
      bgrToRgb (bgrToRgb [1, 2, 3, 4]) = [1, 2, 3, 4]) ∧
    ((bgrToRgb [1, 2, 3, 4]).get? 3 =
      if 3 < ([1, 2, 3, 4] : List Nat).length then some 0 else none) :=
  C3_pixel_conversion 2 2 [1, 2, 3, 4] 0 3 (by decide) (by decide)

theorem brightnessAcc_replicate (k : Nat) (acc : Int) :
    brightnessAcc (List.replicate (3 * k) 255) acc = addPixel255^[k] acc := by
  induction k generalizing acc with
  | zero => simp [brightnessAcc]
  | succ k ih =>
      have h3 : 3 * (k + 1) = 3 * k + 1 + 1 + 1 := by ring
      rw [h3]
      simp only [List.replicate_succ]
      simp only [brightnessAcc]
      rw [ih, Function.iterate_succ_apply]
      norm_num [addPixel255]

theorem addPixel255_iterate (j : Nat) (acc : Int) (h0 : 0 <= acc)
    (h1 : acc + 255 * j <= 2147483647) :
    addPixel255^[j] acc = acc + 255 * j := by
  induction j generalizing acc with
  | zero => simp
  | succ j ih =>
      rw [Function.iterate_succ_apply]
      have hw : addPixel255 acc = acc + 255 := by
        unfold addPixel255
        apply wrap32_eq_self <;> omega
      rw [hw, ih (acc + 255) (by omega) (by omega)]
      push_cast
      ring

theorem pixelSum_replicate (k : Nat) :
    pixelSum (List.replicate (3 * k) 255) = 255 * k := by
  induction k with
  | zero => simp [pixelSum]
  | succ k ih =>
      have h3 : 3 * (k + 1) = 3 * k + 1 + 1 + 1 := by ring
      rw [h3]
      simp only [List.replicate_succ]
      simp only [pixelSum]
      rw [ih]
      omega

/-- C1 counterexample: on the all-255 frame of 25264515 bytes (8421505 RGB24
pixels, a size a little above a 4K frame), the 32-bit long accumulator
overflows, so CalculateAverageBrightness does not return the mean pixel
brightness claimed (which would be 255). -/
theorem C1_counterexample :
    CalculateAverageBrightness (List.replicate 25264515 255) ≠
      some (specMeanBrightness (List.replicate 25264515 255)) := by
  have e : (25264515 : Nat) = 3 * 8421505 := by norm_num
  have h1 : brightnessAcc (List.replicate 25264515 (255 : Nat)) 0 =
      -2147483521 := by
    rw [e, brightnessAcc_replicate]
    have e2 : (8421505 : Nat) = 8421504 + 1 := by norm_num
    rw [e2, Function.iterate_succ_apply']
    rw [addPixel255_iterate 8421504 0 le_rfl (by norm_num)]
    decide
  have h2 : specMeanBrightness (List.replicate 25264515 255) = 255 := by
    unfold specMeanBrightness
    rw [e, pixelSum_replicate]
    norm_num
  intro hcontra
  rw [h2] at hcontra
  unfold CalculateAverageBrightness at hcontra
  rw [h1] at hcontra
  norm_num at hcontra

/-- C1 (amended): for every frame buffer of byte values whose size is a
positive multiple of 3 and small enough that the 32-bit long accumulator
cannot overflow (255 * (frameSize / 3) < 2^31), CalculateAverageBrightness
returns the mean pixel brightness: the sum over every 3-byte pixel of the
integer quotient (b0 + b1 + b2) / 3, divided by the number of pixels
frameSize / 3; and for a buffer of size 0 it returns 0.0. -/
theorem C1_brightness_mean (data : List Nat) (hbytes : ∀ b ∈ data, b < 256)
    (hpos : 0 < data.length) (hmul : data.length % 3 = 0)
    (hov : 255 * (data.length / 3) < 2 ^ 31) :
    CalculateAverageBrightness data = some (specMeanBrightness data) ∧
    CalculateAverageBrightness [] = some 0 := by
  constructor
  · have hsum : pixelSum data <= 255 * (data.length / 3) :=
      pixelSum_le data hbytes
    have hacc : brightnessAcc data 0 = (pixelSum data : Int) := by
      have h := brightnessAcc_no_overflow data 0 le_rfl hbytes
        (by push_cast; omega)
      simpa using h
    have hpix : ¬ (data.length / 3 = 0) := by omega
    unfold CalculateAverageBrightness specMeanBrightness
    rw [hacc]
    simp [hpos, hpix]
  · rfl

theorem C1_witness :
    CalculateAverageBrightness [3, 6, 9] = some (specMeanBrightness [3, 6, 9]) ∧
    CalculateAverageBrightness [] = some 0 :=
  C1_brightness_mean [3, 6, 9] (by decide) (by decide) (by decide)
    (by norm_num)

/-- C10 counterexample: on the one-byte buffer the code computes 0.0 / 0.0
(frameSize / 3 is the integer 0), which is NaN, not a finite value between
0 and 255. -/
theorem C10_counterexample :
    ¬ ∃ q : ℚ, CalculateAverageBrightness [7] = some q ∧ 0 <= q ∧ q <= 255 := by
  rintro ⟨q, hq, -, -⟩
  have hnone : CalculateAverageBrightness [7] = none := rfl
  rw [hnone] at hq
  exact Option.noConfusion hq

/-- C10 (amended): for every frame buffer of byte values whose size is either
0 or at least 3 and small enough that the 32-bit long accumulator cannot
overflow (255 * (frameSize / 3) < 2^31), CalculateAverageBrightness returns a
finite value between 0 and 255 inclusive. -/
theorem C10_brightness_range (data : List Nat) (hbytes : ∀ b ∈ data, b < 256)
    (hsz : data.length = 0 ∨
      (3 <= data.length ∧ 255 * (data.length / 3) < 2 ^ 31)) :
    ∃ q : ℚ, CalculateAverageBrightness data = some q ∧ 0 <= q ∧ q <= 255 := by
  rcases hsz with h0 | ⟨h3, hov⟩
  · have hnil : data = [] := List.length_eq_zero.mp h0
    subst hnil
    exact ⟨0, rfl, le_rfl, by norm_num⟩
  · have hsum : pixelSum data <= 255 * (data.length / 3) :=
      pixelSum_le data hbytes
    have hacc : brightnessAcc data 0 = (pixelSum data : Int) := by
      have h := brightnessAcc_no_overflow data 0 le_rfl hbytes
        (by push_cast; omega)
      simpa using h
    have hpixpos : 0 < data.length / 3 := by omega
    have hpix : ¬ (data.length / 3 = 0) := by omega
    refine ⟨(pixelSum data : ℚ) / ((data.length / 3 : Nat) : ℚ), ?_, ?_, ?_⟩
    · unfold CalculateAverageBrightness
      rw [hacc]
      simp [show 0 < data.length by omega, hpix]
    · apply div_nonneg
      · exact_mod_cast Nat.zero_le _
      · exact_mod_cast Nat.zero_le _
    · rw [div_le_iff₀ (by exact_mod_cast hpixpos)]
      have : (pixelSum data : ℚ) <= ((255 * (data.length / 3) : Nat) : ℚ) := by
        exact_mod_cast hsum
      push_cast at this ⊢
      linarith

theorem C10_witness :
    ∃ q : ℚ, CalculateAverageBrightness [10, 20, 30] = some q ∧
      0 <= q ∧ q <= 255 :=
  C10_brightness_range [10, 20, 30] (by decide)
    (Or.inr ⟨by decide, by norm_num⟩)

/-- C8 counterexample: the program does contain an operation whose result is a
pure, deterministic function of its explicit inputs alone - the error-string
mapping and the brightness computation evaluate to fixed results on concrete
inputs with no camera device or platform runtime involved, contradicting the
claim that every observable behavior depends on the native framework. -/
theorem C8_counterexample :
    GetErrorDescription E_INVALIDARG =
      "HRESULT: 0x80070057 (Invalid argument)" ∧
    CalculateAverageBrightness [10, 20, 30] = some 20 := by
  constructor
  · decide
  · norm_num [CalculateAverageBrightness, brightnessAcc, wrap32]

/-- C8 (amended): the program contains deterministic, platform-independent
logic: brightness averaging, BGR-to-RGB conversion, BMP header population,
FPS computation and error-string mapping each compute results that are pure
functions of their explicit inputs, evaluable with no camera device or
platform runtime; only device enumeration, graph building and frame delivery
depend on the native framework. -/
theorem C8_deterministic_logic :
    CalculateAverageBrightness [10, 20, 30, 40, 50, 60] = some 35 ∧
    bgrToRgb [1, 2, 3, 4] = [3, 2, 1, 0] ∧
    (SaveFrameAsBMP 320 240 (List.replicate 12 9)).fileHeader.bfSize = 66 ∧
    (SaveFrameAsBMP 320 240 (List.replicate 12 9)).infoHeader.biHeight
      = -240 ∧
    GetAverageFPS 30 0 1000 = 30 ∧
    GetErrorDescription VFW_E_NOT_FOUND =
      "HRESULT: 0x80040216 (No capture devices found)" := by
  refine ⟨?_, by decide, by decide, by decide, ?_, by decide⟩
  · norm_num [CalculateAverageBrightness, brightnessAcc, wrap32]
  · norm_num [GetAverageFPS, dwordSub]

theorem Enumeratecameras_eq (env : EnumEnv) (p : List CameraInfo) :
    Enumeratecameras env p =
      if FAILEDb env.createDevEnumHr then (env.createDevEnumHr, [])
      else if env.classEnumFound = false then (VFW_E_NOT_FOUND, [])
      else
        (if (enumLoop env.devices 0).isEmpty then VFW_E_NOT_FOUND else S_OK,
          enumLoop env.devices 0) := rfl

theorem enumLoop_map_index (devs : List DeviceEntry) :
    ∀ k : Nat, (enumLoop devs k).map CameraInfo.index =
      (qualPositions devs).map (· + k) := by
  induction devs with
  | nil => intro k; simp [enumLoop, qualPositions]
  | cons d rest ih =>
      intro k
      by_cases hq : (d.bindOk && d.nameOk) = true
      · simp only [enumLoop, qualPositions, if_pos hq, List.map_cons,
          List.map_map]
        rw [ih (k + 1)]
        refine List.cons_eq_cons.mpr ⟨by omega, ?_⟩
        apply List.map_congr_left
        intro a _
        simp only [Function.comp_apply]
        omega
      · simp only [enumLoop, qualPositions, if_neg hq, List.map_map]
        rw [ih (k + 1)]
        apply List.map_congr_left
        intro a _
        simp only [Function.comp_apply]
        omega

theorem qualPositions_pairwise (devs : List DeviceEntry) :
    List.Pairwise (· < ·) (qualPositions devs) := by
  induction devs with
  | nil => simp [qualPositions]
  | cons d rest ih =>
      by_cases hq : (d.bindOk && d.nameOk) = true
      · simp only [qualPositions, if_pos hq]
        rw [List.pairwise_cons]
        constructor
        · intro a ha
          rw [List.mem_map] at ha
          obtain ⟨b, -, rfl⟩ := ha
          omega
        · rw [List.pairwise_map]
          exact ih.imp fun h => by omega
      · simp only [qualPositions, if_neg hq]
        rw [List.pairwise_map]
        exact ih.imp fun h => by omega

/-- C9 counterexample: when the creation of the system device enumerator
itself fails (here with E_FAIL), Enumeratecameras returns that failure code
with an empty vector, so it does not return VFW_E_NOT_FOUND exactly when the
resulting vector is empty. -/
theorem C9_counterexample :
    (Enumeratecameras
      { createDevEnumHr := E_FAIL, classEnumFound := true, devices := [] }
      []).2 = [] ∧
    (Enumeratecameras
      { createDevEnumHr := E_FAIL, classEnumFound := true, devices := [] }
      []).1 ≠ VFW_E_NOT_FOUND := by
  constructor
  · rfl
  · decide

/-- C9 (amended): Enumeratecameras always clears the output vector first (its
result does not depend on the vector's prior contents); when the system
device enumerator is created successfully it returns VFW_E_NOT_FOUND exactly
when the resulting vector is empty (no class enumerator or no device yielded
a readable FriendlyName), while a failing enumerator creation returns that
failure code with an empty vector; and on S_OK the vector is non-empty and
the index stored in each CameraInfo equals that device's position in the
underlying enumeration order, so stored indices are strictly increasing. -/
theorem C9_enumerate_cameras (env : EnumEnv) (p p' : List CameraInfo) :
    Enumeratecameras env p = Enumeratecameras env p' ∧
    (FAILEDb env.createDevEnumHr = false →
      (((Enumeratecameras env p).1 = VFW_E_NOT_FOUND) ↔
        (Enumeratecameras env p).2 = [])) ∧
    ((Enumeratecameras env p).1 = S_OK →
      (Enumeratecameras env p).2 ≠ [] ∧
      (Enumeratecameras env p).2.map CameraInfo.index =
        qualPositions env.devices ∧
      List.Pairwise (· < ·)
        ((Enumeratecameras env p).2.map CameraInfo.index)) := by
  have hmap : (enumLoop env.devices 0).map CameraInfo.index =
      qualPositions env.devices := by
    have h := enumLoop_map_index env.devices 0
    simpa using h
  refine ⟨rfl, ?_, ?_⟩
  · intro hc
    rw [Enumeratecameras_eq, hc]
    simp only [Bool.false_eq_true, if_false]
    cases hce : env.classEnumFound with
    | false => simp
    | true =>
        simp only [Bool.true_eq_false, if_false]
        cases hcams : (enumLoop env.devices 0).isEmpty with
        | true => simp [List.isEmpty_iff.mp hcams]
        | false =>
            have hne : enumLoop env.devices 0 ≠ [] := by
              intro h
              rw [h] at hcams
              simp at hcams
            simp only [Bool.false_eq_true, if_false]
            constructor
            · intro hS
              exact absurd hS (by norm_num [S_OK, VFW_E_NOT_FOUND])
            · intro hnil
              exact absurd hnil hne
  · intro hS
    rw [Enumeratecameras_eq] at hS ⊢
    cases hfc : FAILEDb env.createDevEnumHr with
    | true =>
        rw [hfc] at hS
        simp only [if_true] at hS
        have hge : 2 ^ 31 <= env.createDevEnumHr := of_decide_eq_true hfc
        rw [hS] at hge
        norm_num [S_OK] at hge
    | false =>
        rw [hfc] at hS
        simp only [Bool.false_eq_true, if_false] at hS ⊢
        cases hce : env.classEnumFound with
        | false =>
            rw [hce] at hS
            simp only [if_pos rfl] at hS
            norm_num [S_OK, VFW_E_NOT_FOUND] at hS
        | true =>
            rw [hce] at hS
            simp only [Bool.true_eq_false, if_false] at hS ⊢
            cases hcams : (enumLoop env.devices 0).isEmpty with
            | true =>
                rw [hcams] at hS
                simp only [if_true] at hS
                norm_num [S_OK, VFW_E_NOT_FOUND] at hS
            | false =>
                have hne : enumLoop env.devices 0 ≠ [] := by
                  intro h
                  rw [h] at hcams
                  simp at hcams
                exact ⟨hne, hmap, hmap ▸ qualPositions_pairwise env.devices⟩

theorem C9_witness :
    ((Enumeratecameras oneCameraEnv []).1 = VFW_E_NOT_FOUND ↔
      (Enumeratecameras oneCameraEnv []).2 = []) ∧
    ((Enumeratecameras oneCameraEnv []).2 ≠ [] ∧
     (Enumeratecameras oneCameraEnv []).2.map CameraInfo.index =
       qualPositions oneCameraEnv.devices ∧
     List.Pairwise (· < ·)
       ((Enumeratecameras oneCameraEnv []).2.map CameraInfo.index)) :=
  ⟨(C9_enumerate_cameras oneCameraEnv [] []).2.1 rfl,
   (C9_enumerate_cameras oneCameraEnv [] []).2.2 rfl⟩
